import Mathlib

/-!
Shallow embedding of `src/main.py` of `file-structured-data-validator`:
the Loader (`load_data`), SchemaLoader (`load_schema`), Validator
(`validate_data`) and the orchestration in `main`, together with a model
of the external parsing and validation libraries the program calls
(`json`, `yaml`, `xml.etree`, `jsonschema`, `lxml`).
-/

namespace FileValidator

/-- Structured values produced by parsing JSON or YAML text: the Python
dicts, lists, strings, numbers, booleans and `None` that the `json` and
`yaml` branches of `main.py` both produce.  Objects are association lists
keyed by strings (Python dicts have unique keys; lookup takes the first
match).  Numbers are modelled as integers, which suffices for every claim. -/
inductive JValue where
  | null
  | bool (b : Bool)
  | num (n : Int)
  | str (s : String)
  | arr (xs : List JValue)
  | obj (fields : List (String × JValue))

/-- Python exception values that can flow through `main.py`, each carrying
the exception's message text.  Only `Exception` subclasses are modelled:
`BaseException`-only classes such as `KeyboardInterrupt` never arise from
the modelled library calls. -/
inductive PyExc where
  | fileNotFound (msg : String)
  | valueError (msg : String)
  | jsonDecodeError (msg : String)
  | yamlError (msg : String)
  | etParseError (msg : String)
  | jsonValidationError (msg : String)
  | jsonSchemaError (msg : String)
  | xmlSchemaErr (msg : String)
  | xmlSynErr (msg : String)
  | docInvalid (msg : String)
  | moduleNotFound (msg : String)
  | nameError (msg : String)
  | otherExc (msg : String)
deriving DecidableEq, Repr

mutual
/-- Structural equality of parsed values, the model of Python `==` on the
parse results (used by the `enum` keyword). -/
def beqJ : JValue → JValue → Bool
  | .null, .null => true
  | .bool a, .bool b => a == b
  | .num a, .num b => a == b
  | .str a, .str b => a == b
  | .arr xs, .arr ys => beqArr xs ys
  | .obj fs, .obj gs => beqObj fs gs
  | _, _ => false
termination_by a _ => sizeOf a

/-- Elementwise equality of parsed lists. -/
def beqArr : List JValue → List JValue → Bool
  | [], [] => true
  | x :: xs, y :: ys => beqJ x y && beqArr xs ys
  | _, _ => false
termination_by a _ => sizeOf a

/-- Entrywise equality of parsed objects (Python dicts are compared here as
their association lists; parsed dicts have unique keys and `json`/`yaml`
preserve textual order, so this suffices for the claims). -/
def beqObj : List (String × JValue) → List (String × JValue) → Bool
  | [], [] => true
  | (k1, v1) :: xs, (k2, v2) :: ys => k1 == k2 && beqJ v1 v2 && beqObj xs ys
  | _, _ => false
termination_by a _ => sizeOf a
end

instance : BEq JValue := ⟨beqJ⟩

/-- Message text of an exception (what `f"... {e}"` interpolates). -/
def excMsg : PyExc → String
  | .fileNotFound m => m
  | .valueError m => m
  | .jsonDecodeError m => m
  | .yamlError m => m
  | .etParseError m => m
  | .jsonValidationError m => m
  | .jsonSchemaError m => m
  | .xmlSchemaErr m => m
  | .xmlSynErr m => m
  | .docInvalid m => m
  | .moduleNotFound m => m
  | .nameError m => m
  | .otherExc m => m

/-- Which exceptions `except jsonschema.exceptions.ValidationError` catches. -/
def isValidationErrorClass : PyExc → Bool
  | .jsonValidationError _ => true
  | _ => false

/-- Which exceptions `except jsonschema.exceptions.SchemaError` catches. -/
def isSchemaErrorClass : PyExc → Bool
  | .jsonSchemaError _ => true
  | _ => false

/-- Which exceptions `except ValueError` catches: `ValueError` and its
subclasses; `json.JSONDecodeError` is the only modelled subclass. -/
def isValueErrorClass : PyExc → Bool
  | .valueError _ => true
  | .jsonDecodeError _ => true
  | _ => false

/-- First-match lookup of a key in a parsed object's field list, the model
of a Python dict access. -/
def lookupField (k : String) : List (String × JValue) → Option JValue
  | [] => none
  | (k2, v) :: rest => if k2 = k then some v else lookupField k rest

/-- The seven primitive type names a JSON Schema `type` keyword may use. -/
def knownTypeName (t : String) : Bool :=
  t == "object" || t == "array" || t == "string" || t == "integer" ||
  t == "number" || t == "boolean" || t == "null"

/-- Whether a value belongs to the named JSON Schema primitive type.  With
numbers modelled as integers, `integer` and `number` coincide. -/
def typeMatches (t : String) : JValue → Bool
  | .obj _ => t == "object"
  | .arr _ => t == "array"
  | .str _ => t == "string"
  | .num _ => t == "integer" || t == "number"
  | .bool _ => t == "boolean"
  | .null => t == "null"

/-- The `required` keyword: every listed name must be a key of the instance
when the instance is an object; `required` does not constrain non-objects. -/
def requiredOkJ (sv v : JValue) : Bool :=
  match sv, v with
  | .arr reqs, .obj fields =>
      reqs.all fun r =>
        match r with
        | .str s => (lookupField s fields).isSome
        | _ => true
  | _, _ => true

/-- Membership of a value in an `enum` list. -/
def memJ (v : JValue) (xs : List JValue) : Bool :=
  xs.any fun x => x == v

mutual
/-- Conformance of an instance to a schema document.  Modelled from the
spec: the external `jsonschema` library's structural validation ("type,
required properties, property schemas, enum ... as defined by the JSON
Schema specification"), restricted to the keywords this model covers
(`type` with a single primitive name, `required`, `properties`, `enum`);
unknown keywords are ignored, as the library ignores them. -/
def conformsJ : JValue → JValue → Bool
  | .bool b, _ => b
  | .obj sfields, v => conformsFields sfields v
  | _, _ => false
termination_by s _ => sizeOf s

/-- Conjunction of the checks imposed by each schema keyword entry. -/
def conformsFields : List (String × JValue) → JValue → Bool
  | [], _ => true
  | (k, sv) :: rest, v => entryOk k sv v && conformsFields rest v
termination_by l _ => sizeOf l

/-- The check imposed on an instance by one schema keyword entry. -/
def entryOk (k : String) (sv : JValue) (v : JValue) : Bool :=
  if k = "type" then
    match sv with
    | .str t => typeMatches t v
    | _ => true
  else if k = "required" then requiredOkJ sv v
  else if k = "properties" then
    match sv with
    | .obj pf => propsOkJ pf v
    | _ => true
  else if k = "enum" then
    match sv with
    | .arr xs => memJ v xs
    | _ => true
  else true
termination_by sizeOf sv

/-- The `properties` keyword: each named property present in an object
instance must conform to its subschema; absent properties and non-object
instances pass. -/
def propsOkJ : List (String × JValue) → JValue → Bool
  | [], _ => true
  | (k, sub) :: rest, v =>
      (match v with
       | .obj fields =>
           match lookupField k fields with
           | some child => conformsJ sub child
           | none => true
       | _ => true) && propsOkJ rest v
termination_by l _ => sizeOf l
end

mutual
/-- Validity of a document as a schema (the library's metaschema check):
a schema is a boolean or an object whose recognised keywords are
well-formed; in particular a `type` naming no known primitive (such as
`"nonexistent-type"`) makes the schema invalid.  Modelled from the spec. -/
def checkSchemaJ : JValue → Bool
  | .bool _ => true
  | .obj sfields => checkFieldsJ sfields
  | _ => false
termination_by s => sizeOf s

/-- Metaschema check of every keyword entry of a schema object. -/
def checkFieldsJ : List (String × JValue) → Bool
  | [] => true
  | (k, sv) :: rest => checkEntry k sv && checkFieldsJ rest
termination_by l => sizeOf l

/-- Metaschema check of one keyword entry. -/
def checkEntry (k : String) (sv : JValue) : Bool :=
  if k = "type" then
    match sv with
    | .str t => knownTypeName t
    | _ => false
  else if k = "required" then
    match sv with
    | .arr xs => xs.all fun r => match r with | .str _ => true | _ => false
    | _ => false
  else if k = "properties" then
    match sv with
    | .obj pf => checkPropsJ pf
    | _ => false
  else if k = "enum" then
    match sv with
    | .arr _ => true
    | _ => false
  else true
termination_by sizeOf sv

/-- Metaschema check of the subschemas under `properties`. -/
def checkPropsJ : List (String × JValue) → Bool
  | [] => true
  | (_, sv) :: rest => checkSchemaJ sv && checkPropsJ rest
termination_by l => sizeOf l
end

/-- Model of `jsonschema.validate(instance, schema)` (lines 128 and 131):
the library first checks the schema against its metaschema and raises
`SchemaError` for an invalid schema; otherwise it raises `ValidationError`
exactly when the instance does not conform, and returns `None` on success. -/
def jsonschemaValidate (inst schema : JValue) : Except PyExc Unit :=
  if checkSchemaJ schema then
    if conformsJ schema inst then .ok ()
    else .error (.jsonValidationError "instance does not conform to schema")
  else .error (.jsonSchemaError "schema is not valid under the metaschema")

/-- What `load_data` hands to `validate_data`: the parsed structure for the
`json`/`yaml` branches (line 49/51) or the root element of the parsed tree
for the `xml` branch (lines 53 and 54).  The element tree itself is left
abstract: the only use the validator makes of it is through the `lxml`
calls, which are modelled by `LxmlRun` below. -/
inductive DataVal where
  | struct (v : JValue)
  | xmlRoot

/-- What `load_schema` returns: the parsed schema document for `json`/`yaml`
(lines 89 and 91) or, for `xml`, the schema file's path itself (line 93). -/
inductive SchemaVal where
  | struct (v : JValue)
  | path (p : String)

/-- Constraints an element instance can satisfy when `jsonschema.validate`
is (mis)applied to an `ElementTree` element: an element matches no JSON
primitive type and equals no JSON `enum` member, while `required` and
`properties` do not constrain non-objects.  This mismatch case arises only
when the caller confuses the format tags and no claim exercises it. -/
def elemEntryOk (k : String) (sv : JValue) : Bool :=
  if k = "type" then
    match sv with
    | .str _ => false
    | _ => true
  else if k = "enum" then
    match sv with
    | .arr _ => false
    | _ => true
  else true

/-- Conformance of an element instance to a structured schema (see
`elemEntryOk`). -/
def elemConforms : JValue → Bool
  | .bool b => b
  | .obj sfields => sfields.all fun kv => elemEntryOk kv.1 kv.2
  | _ => false

/-- The raw call `validate(instance=data, schema=schema)` on the duck-typed
arguments `validate_data` receives (lines 128 and 131): a string schema
(the XSD path, reachable only if the caller confused the format tags) is
rejected by the metaschema check, an element instance is validated per
`elemConforms`, and the structural case is `jsonschemaValidate`. -/
def jsValidateCall (d : DataVal) (s : SchemaVal) : Except PyExc Unit :=
  match s with
  | .path _ => .error (.jsonSchemaError "schema is not of a valid schema type")
  | .struct sv =>
    match d with
    | .struct dv => jsonschemaValidate dv sv
    | .xmlRoot =>
        if checkSchemaJ sv then
          if elemConforms sv then .ok ()
          else .error (.jsonValidationError "instance does not conform to schema")
        else .error (.jsonSchemaError "schema is not valid under the metaschema")

/-- One run's worth of results of the external `lxml` calls in the `xml`
branch of `validate_data` (lines 137 to 143), in the order the branch makes
them: the `import lxml.etree as lxml_ET`, `lxml_ET.parse(schema)`,
`lxml_ET.XMLSchema(xmlschema_doc)`, `ET.tostring(data)`,
`lxml_ET.fromstring(xml_string)` and `xmlschema.assertValid(xml_doc)`.
Each field is the exception that call raises, if any; the program never
inspects the successful values, so they are modelled as `Unit`. -/
structure LxmlRun where
  importLxml : Except PyExc Unit
  parseSchemaDoc : Except PyExc Unit
  compileXmlSchema : Except PyExc Unit
  tostringData : Except PyExc Unit
  fromstringDoc : Except PyExc Unit
  assertValidRes : Except PyExc Unit

/-- The body of the inner `try` of the `xml` branch (lines 137 to 144):
the six calls run in order and the first exception aborts the rest. -/
def xmlInnerBody (o : LxmlRun) : Except PyExc Unit := do
  o.importLxml
  o.parseSchemaDoc
  o.compileXmlSchema
  o.tostringData
  o.fromstringDoc
  o.assertValidRes

/-- The messages `validate_data` can log, one per handler (lines 147, 150,
153, 158, 161, 164 and 167). -/
inductive LogMsg where
  | xmlSchemaLog (m : String)
  | xmlSynLog (m : String)
  | innerUnexpectedLog (m : String)
  | validationLog (m : String)
  | schemaLog (m : String)
  | errorDuringValidationLog (m : String)
  | unexpectedLog (m : String)
deriving DecidableEq, Repr

/-- The observable behaviour of one `validate_data` call: the boolean it
returns (the only thing its caller `main` inspects, line 216) and the log
line the handler that fired emitted, if any. -/
structure VResult where
  ret : Bool
  log : Option LogMsg
deriving DecidableEq, Repr

/-- One `except CLASS as e:` clause.  Python evaluates the class expression
only once an exception is being matched; that evaluation may itself raise
(`eval = .error _`), otherwise it yields the predicate telling which
exceptions the clause catches.  `body` is the clause's result. -/
structure Handler where
  eval : Except PyExc (PyExc → Bool)
  body : PyExc → VResult

/-- Python semantics of a chain of `except` clauses handling exception `e`:
clauses are tried in order; if evaluating a clause's class expression
raises, that new exception propagates and no further clause is tried; the
first matching clause runs its body; if no clause matches, `e` propagates. -/
def runHandlers (e : PyExc) : List Handler → Except PyExc VResult
  | [] => .error e
  | h :: rest =>
    match h.eval with
    | .error e2 => .error e2
    | .ok catches => if catches e then .ok (h.body e) else runHandlers e rest

/-- The exception Python raises when the inner handlers of the `xml` branch
evaluate `lxml.etree.XMLSchemaError` or `lxml.etree.XMLSyntaxError` (lines
146 and 149): the import at line 137 is `import lxml.etree as lxml_ET`,
which binds only the alias `lxml_ET`, so the bare name `lxml` is unbound in
the module and evaluating the attribute chain raises `NameError`. -/
def nameLxmlUnbound : PyExc := .nameError "name lxml is not defined"

/-- The three inner `except` clauses of the `xml` branch (lines 146 to 154),
as written in the source: the first two name `lxml.etree.XMLSchemaError` and
`lxml.etree.XMLSyntaxError`, whose evaluation raises `NameError` (see
`nameLxmlUnbound`), and the third is a bare `except Exception` that logs and
returns `False`. -/
def innerXmlHandlers : List Handler :=
  [ { eval := .error nameLxmlUnbound,
      body := fun e => ⟨false, some (.xmlSchemaLog (excMsg e))⟩ },
    { eval := .error nameLxmlUnbound,
      body := fun e => ⟨false, some (.xmlSynLog (excMsg e))⟩ },
    { eval := .ok fun _ => true,
      body := fun e => ⟨false, some (.innerUnexpectedLog (excMsg e))⟩ } ]

/-- The four outer `except` clauses of `validate_data` (lines 157 to 168).
Their class expressions (`jsonschema.exceptions.ValidationError`,
`jsonschema.exceptions.SchemaError`, `ValueError`, `Exception`) all
evaluate without error — `jsonschema` is imported at line 7 and the other
two are builtins — so the chain is a plain first-match dispatch, ending in
a catch-all, and each clause logs and returns `False`. -/
def handleOuter (e : PyExc) : VResult :=
  if isValidationErrorClass e then ⟨false, some (.validationLog (excMsg e))⟩
  else if isSchemaErrorClass e then ⟨false, some (.schemaLog (excMsg e))⟩
  else if isValueErrorClass e then
    ⟨false, some (.errorDuringValidationLog (excMsg e))⟩
  else ⟨false, some (.unexpectedLog (excMsg e))⟩

/-- The body of the outer `try` of `validate_data` (lines 126 to 156):
dispatch on `file_type`, with the `json` and `yaml` branches calling
`validate` and returning `True`, the `xml` branch running the inner
`try`/`except`, and any other tag raising
`ValueError("Unsupported file type.")`. -/
def validateBody (d : DataVal) (s : SchemaVal) (file_type : String)
    (o : LxmlRun) : Except PyExc VResult :=
  if file_type = "json" then
    match jsValidateCall d s with
    | .ok _ => .ok ⟨true, none⟩
    | .error e => .error e
  else if file_type = "yaml" then
    match jsValidateCall d s with
    | .ok _ => .ok ⟨true, none⟩
    | .error e => .error e
  else if file_type = "xml" then
    match xmlInnerBody o with
    | .ok _ => .ok ⟨true, none⟩
    | .error e => runHandlers e innerXmlHandlers
  else .error (.valueError "Unsupported file type.")

/-- The function `validate_data(data, schema, file_type)` (lines 108 to
168): the outer `try` body runs, and any exception it propagates — from the
library calls, from the unsupported-format `raise`, or from evaluating an
inner `except` clause — is dispatched by the outer handler chain, whose
final `except Exception` catches everything, so the call always returns a
boolean. -/
def validate_data (d : DataVal) (s : SchemaVal) (file_type : String)
    (o : LxmlRun) : VResult :=
  match validateBody d s file_type o with
  | .ok r => r
  | .error e => handleOuter e

/-- One file's worth of results of the external parsing calls a loader can
make on it: `json.load(f)` (line 49 or 89), `yaml.safe_load(f)` (line 51 or
91) and `ET.parse(f)` (line 53).  Each field is what the corresponding call
would yield on this file's text — a parsed value, or the exception it
raises.  A file whose text is `null` (JSON) or empty (YAML `safe_load`)
parses to `.ok .null`, the model of Python `None`.  The `open` itself is
modelled as succeeding: `main` only reaches the loaders after
`is_valid_file_path` confirmed both paths exist and are readable. -/
structure FileContent where
  jsonParse : Except PyExc JValue
  yamlParse : Except PyExc JValue
  xmlParse : Except PyExc Unit

/-- The function `load_data(file_path, file_type)` (lines 29 to 66): the
branch chosen by `file_type` parses the file, an unrecognised tag raises
`ValueError("Unsupported file type.")`, and every `except` clause of the
function (lines 58 to 66) only logs and re-raises, so the result of the
body propagates to the caller unchanged. -/
def load_data (c : FileContent) (file_type : String) : Except PyExc DataVal :=
  if file_type = "json" then Except.map DataVal.struct c.jsonParse
  else if file_type = "yaml" then Except.map DataVal.struct c.yamlParse
  else if file_type = "xml" then Except.map (fun _ => DataVal.xmlRoot) c.xmlParse
  else .error (.valueError "Unsupported file type.")

/-- The function `load_schema(schema_path, file_type)` (lines 69 to 105):
`json`/`yaml` parse the schema file like `load_data` does, the `xml` branch
ignores the opened file and returns the path string itself (line 93), an
unrecognised tag raises `ValueError("Unsupported schema file type.")`, and
every `except` clause (lines 97 to 105) only logs and re-raises. -/
def load_schema (schema_path : String) (c : FileContent) (file_type : String) :
    Except PyExc SchemaVal :=
  if file_type = "json" then Except.map SchemaVal.struct c.jsonParse
  else if file_type = "yaml" then Except.map SchemaVal.struct c.yamlParse
  else if file_type = "xml" then .ok (.path schema_path)
  else .error (.valueError "Unsupported schema file type.")

/-- Python's `data is not None` test of line 215 on a loaded value: only a
structured parse result equal to `None` is `None`; an element root never is
(the `xml` branch of `load_data` returns `tree.getroot()` of a successful
parse). -/
def isNoneData : DataVal → Bool
  | .struct .null => true
  | _ => false

/-- Python's `schema is not None` test of line 215 on a loaded schema: only
a structured parse result equal to `None` is `None`; the `xml` branch's
path string never is. -/
def isNoneSchema : SchemaVal → Bool
  | .struct .null => true
  | _ => false

/-- The `try` block of `main` (lines 211 to 224), run after both paths
passed `is_valid_file_path`: load the data, load the schema, and if both
are not `None` print the verdict line chosen by `validate_data`'s boolean,
else print the load-failure line; any exception the loaders raise is caught
at line 223 and printed as `An error occurred: {e}`.  The result is the
line `main` prints. -/
def mainRun (schema_path : String) (dc sc : FileContent) (file_type : String)
    (o : LxmlRun) : String :=
  match load_data dc file_type with
  | .error e => "An error occurred: " ++ excMsg e
  | .ok data =>
    match load_schema schema_path sc file_type with
    | .error e => "An error occurred: " ++ excMsg e
    | .ok schema =>
      if !isNoneData data && !isNoneSchema schema then
        if (validate_data data schema file_type o).ret then
          "Data validation successful."
        else "Data validation failed."
      else "Failed to load data or schema."

/-! Concrete sample values used by the witnesses and counterexamples. -/

/-- An `LxmlRun` in which every external `lxml` call succeeds. -/
def oAllOk : LxmlRun := ⟨.ok (), .ok (), .ok (), .ok (), .ok (), .ok ()⟩

/-- An `LxmlRun` for a garbled XSD file: `lxml_ET.parse(schema)` raises an
`XMLSyntaxError` and nothing later runs. -/
def oBadXsd : LxmlRun :=
  ⟨.ok (), .error (.xmlSynErr "garbled schema file"), .ok (), .ok (), .ok (), .ok ()⟩

/-- An `LxmlRun` for a well-formed XSD and a non-conforming document:
`xmlschema.assertValid(xml_doc)` raises `DocumentInvalid`. -/
def oNonConform : LxmlRun :=
  ⟨.ok (), .ok (), .ok (), .ok (), .ok (),
   .error (.docInvalid "element item does not conform to type xs:integer")⟩

/-- An `LxmlRun` in which `assertValid` fails with an unanticipated
library-internal fault. -/
def oBoom : LxmlRun :=
  ⟨.ok (), .ok (), .ok (), .ok (), .ok (), .error (.otherExc "internal lxml fault")⟩

/-- The example schema of `main.py` line 235: an object with string `name`,
integer `age`, both required. -/
def schemaPerson : JValue :=
  .obj [("type", .str "object"),
        ("properties", .obj [("name", .obj [("type", .str "string")]),
                             ("age", .obj [("type", .str "integer")])]),
        ("required", .arr [.str "name", .str "age"])]

/-- A malformed schema: its `type` names no known primitive, so the
metaschema check rejects it (spec section 8). -/
def schemaBadType : JValue := .obj [("type", .str "nonexistent-type")]

/-- The example document of `main.py` line 232. -/
def docJohn : JValue := .obj [("name", .str "John Doe"), ("age", .num 30)]

/-- A document lacking the required property `age`. -/
def docNoAge : JValue := .obj [("name", .str "John Doe")]

/-- File contents parsing to `docJohn` under either structured parser. -/
def fcDocJohn : FileContent := ⟨.ok docJohn, .ok docJohn, .ok ()⟩

/-- File contents parsing to `docNoAge` under either structured parser. -/
def fcDocNoAge : FileContent := ⟨.ok docNoAge, .ok docNoAge, .ok ()⟩

/-- File contents parsing to `schemaPerson` under either structured parser. -/
def fcSchemaPerson : FileContent := ⟨.ok schemaPerson, .ok schemaPerson, .ok ()⟩

/-- File contents parsing to `schemaBadType`. -/
def fcSchemaBadType : FileContent := ⟨.ok schemaBadType, .ok schemaBadType, .ok ()⟩

/-- File contents of the syntactically broken JSON file of spec Scenario C:
`json.load` raises `JSONDecodeError` (a `ValueError` subclass). -/
def fcBrokenJson : FileContent :=
  ⟨.error (.jsonDecodeError "Expecting value: line 1 column 9 (char 8)"),
   .ok .null, .ok ()⟩

/-- File contents whose text parses to `None`: a JSON file containing the
literal `null`, which is also what `yaml.safe_load` yields on an empty
file. -/
def fcNull : FileContent := ⟨.ok .null, .ok .null, .ok ()⟩

/-! Helper lemmas shared by the claim theorems. -/

/-- Unfolding of `validate_data` for the `json` branch (lines 127 to 129 and
the outer handlers). -/
theorem validate_data_json (d : DataVal) (s : SchemaVal) (o : LxmlRun) :
    validate_data d s "json" o =
      match jsValidateCall d s with
      | .ok _ => ⟨true, none⟩
      | .error e => handleOuter e := by
  cases h : jsValidateCall d s <;>
    simp only [validate_data, validateBody, h, reduceIte]

/-- Unfolding of `validate_data` for the `yaml` branch (lines 130 to 132),
which runs the very same call as the `json` branch. -/
theorem validate_data_yaml (d : DataVal) (s : SchemaVal) (o : LxmlRun) :
    validate_data d s "yaml" o =
      match jsValidateCall d s with
      | .ok _ => ⟨true, none⟩
      | .error e => handleOuter e := by
  cases h : jsValidateCall d s <;>
    simp only [validate_data, validateBody, h] <;> rfl

/-- Evaluating the first inner `except` clause of the `xml` branch raises
`NameError`, so the whole inner chain converts every exception into that
`NameError`, whatever the exception was. -/
theorem runHandlers_inner (e : PyExc) :
    runHandlers e innerXmlHandlers = .error nameLxmlUnbound := rfl

/-- Unfolding of `validate_data` for the `xml` branch: success returns
`True`; any exception of the inner body becomes the `NameError` of the dead
inner handlers and is then caught by the outer `except Exception`. -/
theorem validate_data_xml (d : DataVal) (s : SchemaVal) (o : LxmlRun) :
    validate_data d s "xml" o =
      match xmlInnerBody o with
      | .ok _ => ⟨true, none⟩
      | .error _ => ⟨false, some (.unexpectedLog "name lxml is not defined")⟩ := by
  cases h : xmlInnerBody o <;>
    simp only [validate_data, validateBody, h, reduceIte, runHandlers_inner] <;> rfl

/-- Unfolding of `validate_data` for an unrecognised format tag: the
`raise ValueError` of line 156 is caught by the `except ValueError` of line
163, which logs and returns `False`. -/
theorem validate_data_unsupported (d : DataVal) (s : SchemaVal) (o : LxmlRun)
    (ft : String) (h1 : ft ≠ "json") (h2 : ft ≠ "yaml") (h3 : ft ≠ "xml") :
    validate_data d s ft o =
      ⟨false, some (.errorDuringValidationLog "Unsupported file type.")⟩ := by
  simp only [validate_data, validateBody, if_neg h1, if_neg h2, if_neg h3]
  rfl

/-- Every result of `handleOuter` is `False` with one log line. -/
theorem handleOuter_shape (e : PyExc) :
    ∃ l, handleOuter e = ⟨false, some l⟩ := by
  unfold handleOuter
  split
  · exact ⟨_, rfl⟩
  · split
    · exact ⟨_, rfl⟩
    · split
      · exact ⟨_, rfl⟩
      · exact ⟨_, rfl⟩

/-- When both loads succeed with non-`None` values, `main` prints the
verdict line chosen by `validate_data`'s boolean (lines 215 to 219). -/
theorem mainRun_validate (sp : String) (dc sc : FileContent) (ft : String)
    (o : LxmlRun) (d : DataVal) (s : SchemaVal)
    (hd : load_data dc ft = .ok d) (hs : load_schema sp sc ft = .ok s)
    (hnn : (!isNoneData d && !isNoneSchema s) = true) :
    mainRun sp dc sc ft o =
      if (validate_data d s ft o).ret then "Data validation successful."
      else "Data validation failed." := by
  simp only [mainRun, hd, hs, hnn, if_true]

/-- A `required` list naming a property the object instance lacks fails the
`required` check. -/
theorem requiredOkJ_false (reqs : List JValue) (dfields : List (String × JValue))
    (k : String) (hk : JValue.str k ∈ reqs) (hmiss : lookupField k dfields = none) :
    requiredOkJ (.arr reqs) (.obj dfields) = false := by
  rw [requiredOkJ]
  rw [Bool.eq_false_iff]
  intro hall
  rw [List.all_eq_true] at hall
  have := hall _ hk
  simp only [hmiss, Option.isSome_none] at this
  exact Bool.false_ne_true this

/-- If one keyword entry of a schema object rejects the instance, the whole
entry list rejects it. -/
theorem conformsFields_false_of_entry (sfields : List (String × JValue))
    (v : JValue) (k : String) (sv : JValue) (hmem : (k, sv) ∈ sfields)
    (hfail : entryOk k sv v = false) :
    conformsFields sfields v = false := by
  induction sfields with
  | nil => cases hmem
  | cons head rest ih =>
      rw [List.mem_cons] at hmem
      rcases head with ⟨k2, sv2⟩
      rcases hmem with heq | hmem
      · injection heq with h1 h2
        subst h1
        subst h2
        rw [conformsFields, hfail, Bool.false_and]
      · rw [conformsFields, ih hmem, Bool.and_false]

/-! Claim theorems. -/

/-- C6: for every document, schema and external-library behaviour,
`validate_data` with format `json` and `validate_data` with format `yaml`
execute the identical structural validation call (lines 127 to 132 run
`validate(instance=data, schema=schema)` in both branches) and return the
same outcome. -/
theorem json_yaml_same_outcome (d : DataVal) (s : SchemaVal) (o : LxmlRun) :
    validate_data d s "json" o = validate_data d s "yaml" o := by
  rw [validate_data_json, validate_data_yaml]

/-- C8: for every path and format `xml`, `load_schema` returns the given
path wrapped verbatim (line 93) and performs no parsing of the schema
file's content — its result is the same whatever the file contains. -/
theorem load_schema_xml_path_verbatim (sp : String) (c c' : FileContent) :
    load_schema sp c "xml" = .ok (.path sp) ∧
    load_schema sp c' "xml" = load_schema sp c "xml" := ⟨rfl, rfl⟩

/-- C4: for every format value outside `{json, yaml, xml}`, `load_data` and
`load_schema` fail with the unsupported-format `ValueError` (lines 56 and
95) without attempting any parse (their results do not depend on the file
contents), and `validate_data` returns `False` through its caught
`ValueError` path (lines 156 and 163 to 165) without raising. -/
theorem unsupported_format_no_parse_no_raise
    (ft sp : String) (c c' : FileContent) (d : DataVal) (s : SchemaVal)
    (o : LxmlRun) (h1 : ft ≠ "json") (h2 : ft ≠ "yaml") (h3 : ft ≠ "xml") :
    load_data c ft = .error (.valueError "Unsupported file type.") ∧
    load_data c' ft = load_data c ft ∧
    load_schema sp c ft = .error (.valueError "Unsupported schema file type.") ∧
    load_schema sp c' ft = load_schema sp c ft ∧
    validate_data d s ft o =
      ⟨false, some (.errorDuringValidationLog "Unsupported file type.")⟩ := by
  have hl : load_data c ft = .error (.valueError "Unsupported file type.") := by
    simp only [load_data, if_neg h1, if_neg h2, if_neg h3]
  have hl' : load_data c' ft = .error (.valueError "Unsupported file type.") := by
    simp only [load_data, if_neg h1, if_neg h2, if_neg h3]
  have hs : load_schema sp c ft = .error (.valueError "Unsupported schema file type.") := by
    simp only [load_schema, if_neg h1, if_neg h2, if_neg h3]
  have hs' : load_schema sp c' ft = .error (.valueError "Unsupported schema file type.") := by
    simp only [load_schema, if_neg h1, if_neg h2, if_neg h3]
  exact ⟨hl, hl'.trans hl.symm, hs, hs'.trans hs.symm,
    validate_data_unsupported d s o ft h1 h2 h3⟩

/-- C4 witness: the format tag `csv` at concrete inputs. -/
theorem unsupported_format_no_parse_no_raise_witness :
    load_data fcDocJohn "csv" = .error (.valueError "Unsupported file type.") ∧
    load_data fcNull "csv" = load_data fcDocJohn "csv" ∧
    load_schema "schema.csv" fcDocJohn "csv" =
      .error (.valueError "Unsupported schema file type.") ∧
    load_schema "schema.csv" fcNull "csv" = load_schema "schema.csv" fcDocJohn "csv" ∧
    validate_data (.struct docJohn) (.struct schemaPerson) "csv" oAllOk =
      ⟨false, some (.errorDuringValidationLog "Unsupported file type.")⟩ :=
  unsupported_format_no_parse_no_raise "csv" "schema.csv" fcDocJohn fcNull
    (.struct docJohn) (.struct schemaPerson) oAllOk
    (by decide) (by decide) (by decide)

/-- C2: amended.  `validate_data` indeed never raises — every internal
fault, anticipated or not, is caught (the outer chain ends in a bare
`except Exception`) — but what the caller observes is a boolean, not a
four-variant outcome: every call returns either `True` with no log line or
`False` with exactly one handler log line, and unanticipated faults yield
plain `False` (with the message only logged), not a `SchemaError` value. -/
theorem validate_data_total_boolean (d : DataVal) (s : SchemaVal)
    (ft : String) (o : LxmlRun) :
    validate_data d s ft o = ⟨true, none⟩ ∨
    ∃ l, validate_data d s ft o = ⟨false, some l⟩ := by
  by_cases h1 : ft = "json"
  · subst h1
    rw [validate_data_json]
    cases hc : jsValidateCall d s with
    | ok u => left; rfl
    | error e => right; exact handleOuter_shape e
  · by_cases h2 : ft = "yaml"
    · subst h2
      rw [validate_data_yaml]
      cases hc : jsValidateCall d s with
      | ok u => left; rfl
      | error e => right; exact handleOuter_shape e
    · by_cases h3 : ft = "xml"
      · subst h3
        rw [validate_data_xml]
        cases hc : xmlInnerBody o with
        | ok u => left; rfl
        | error e => right; exact ⟨_, rfl⟩
      · right
        rw [validate_data_unsupported d s o ft h1 h2 h3]
        exact ⟨_, rfl⟩

/-- C2 counterexample: an unanticipated library-internal fault (an
`assertValid` failure with message `internal lxml fault`) is not converted
to a SchemaError outcome carrying the original message: the result is the
same `False` the caller gets for Invalid, and the only log line is the
generic unexpected-error one about the unbound name `lxml`, with the
original message nowhere in the outcome. -/
theorem unanticipated_fault_not_schemaError :
    validate_data .xmlRoot (.path "schema.xsd") "xml" oBoom =
      ⟨false, some (.unexpectedLog "name lxml is not defined")⟩ ∧
    validate_data .xmlRoot (.path "schema.xsd") "xml" oBoom ≠
      ⟨false, some (.schemaLog "internal lxml fault")⟩ := ⟨rfl, by decide⟩

/-- C1: amended.  For a JSON or YAML run, a structurally invalid schema is
caught by the dedicated `except jsonschema.exceptions.SchemaError` clause
(line 160) and a well-formed document that merely fails to conform is
caught by the `except ValidationError` clause (line 157) — the two classes
are distinguished in the log stream — but both make `validate_data` return
the same value `False`, so the caller, which only sees the boolean, cannot
distinguish the SchemaError case from the Invalid case. -/
theorem validate_data_schemaError_vs_invalid (dv sv : JValue) (ft : String)
    (o : LxmlRun) (hft : ft = "json" ∨ ft = "yaml") :
    (checkSchemaJ sv = false →
      validate_data (.struct dv) (.struct sv) ft o =
        ⟨false, some (.schemaLog "schema is not valid under the metaschema")⟩) ∧
    (checkSchemaJ sv = true → conformsJ sv dv = false →
      validate_data (.struct dv) (.struct sv) ft o =
        ⟨false, some (.validationLog "instance does not conform to schema")⟩) := by
  constructor
  · intro h
    have hc : jsValidateCall (.struct dv) (.struct sv) =
        .error (.jsonSchemaError "schema is not valid under the metaschema") := by
      simp [jsValidateCall, jsonschemaValidate, h]
    rcases hft with hf | hf <;> subst hf
    · rw [validate_data_json, hc]
      rfl
    · rw [validate_data_yaml, hc]
      rfl
  · intro h1 h2
    have hc : jsValidateCall (.struct dv) (.struct sv) =
        .error (.jsonValidationError "instance does not conform to schema") := by
      simp [jsValidateCall, jsonschemaValidate, h1, h2]
    rcases hft with hf | hf <;> subst hf
    · rw [validate_data_json, hc]
      rfl
    · rw [validate_data_yaml, hc]
      rfl

/-- C1 witness: the malformed schema `{"type": "nonexistent-type"}` takes
the SchemaError handler in both the `json` and the `yaml` branch, and a
document missing a required property takes the ValidationError handler, at
concrete inputs. -/
theorem validate_data_schemaError_vs_invalid_witness :
    validate_data (.struct docJohn) (.struct schemaBadType) "json" oAllOk =
      ⟨false, some (.schemaLog "schema is not valid under the metaschema")⟩ ∧
    validate_data (.struct docJohn) (.struct schemaBadType) "yaml" oAllOk =
      ⟨false, some (.schemaLog "schema is not valid under the metaschema")⟩ ∧
    validate_data (.struct docNoAge) (.struct schemaPerson) "json" oAllOk =
      ⟨false, some (.validationLog "instance does not conform to schema")⟩ ∧
    validate_data (.struct docNoAge) (.struct schemaPerson) "yaml" oAllOk =
      ⟨false, some (.validationLog "instance does not conform to schema")⟩ :=
  ⟨(validate_data_schemaError_vs_invalid docJohn schemaBadType "json" oAllOk
      (Or.inl rfl)).1
      (by simp [schemaBadType, checkSchemaJ, checkFieldsJ, checkEntry, knownTypeName]),
   (validate_data_schemaError_vs_invalid docJohn schemaBadType "yaml" oAllOk
      (Or.inr rfl)).1
      (by simp [schemaBadType, checkSchemaJ, checkFieldsJ, checkEntry, knownTypeName]),
   (validate_data_schemaError_vs_invalid docNoAge schemaPerson "json" oAllOk
      (Or.inl rfl)).2
      (by simp [schemaPerson, checkSchemaJ, checkFieldsJ, checkEntry, checkPropsJ,
        knownTypeName])
      (by simp [schemaPerson, docNoAge, conformsJ, conformsFields, entryOk, propsOkJ,
        requiredOkJ, typeMatches, lookupField, memJ]),
   (validate_data_schemaError_vs_invalid docNoAge schemaPerson "yaml" oAllOk
      (Or.inr rfl)).2
      (by simp [schemaPerson, checkSchemaJ, checkFieldsJ, checkEntry, checkPropsJ,
        knownTypeName])
      (by simp [schemaPerson, docNoAge, conformsJ, conformsFields, entryOk, propsOkJ,
        requiredOkJ, typeMatches, lookupField, memJ])⟩

/-- C1 counterexample: the SchemaError outcome is not distinguishable by
the caller from the Invalid outcome, in either the `json` or the `yaml`
branch.  A malformed schema (`{"type": "nonexistent-type"}`) and a
conformance failure (a document missing the required `age`) produce the
identical caller-visible return value `False` under both formats, and
`main` prints the identical line for all four runs. -/
theorem schemaError_outcome_not_caller_distinguishable :
    (validate_data (.struct docJohn) (.struct schemaBadType) "json" oAllOk).ret
      = (validate_data (.struct docNoAge) (.struct schemaPerson) "json" oAllOk).ret ∧
    (validate_data (.struct docJohn) (.struct schemaBadType) "json" oAllOk).ret = false ∧
    (validate_data (.struct docJohn) (.struct schemaBadType) "yaml" oAllOk).ret
      = (validate_data (.struct docNoAge) (.struct schemaPerson) "yaml" oAllOk).ret ∧
    (validate_data (.struct docJohn) (.struct schemaBadType) "yaml" oAllOk).ret = false ∧
    mainRun "schema.json" fcDocJohn fcSchemaBadType "json" oAllOk =
      "Data validation failed." ∧
    mainRun "schema.json" fcDocNoAge fcSchemaPerson "json" oAllOk =
      "Data validation failed." ∧
    mainRun "schema.yaml" fcDocJohn fcSchemaBadType "yaml" oAllOk =
      "Data validation failed." ∧
    mainRun "schema.yaml" fcDocNoAge fcSchemaPerson "yaml" oAllOk =
      "Data validation failed." := by
  have hcBad : jsValidateCall (.struct docJohn) (.struct schemaBadType) =
      .error (.jsonSchemaError "schema is not valid under the metaschema") := by
    simp [jsValidateCall, jsonschemaValidate, schemaBadType, checkSchemaJ,
      checkFieldsJ, checkEntry, knownTypeName]
  have hcMiss : jsValidateCall (.struct docNoAge) (.struct schemaPerson) =
      .error (.jsonValidationError "instance does not conform to schema") := by
    simp [jsValidateCall, jsonschemaValidate, schemaPerson, docNoAge, checkSchemaJ,
      checkFieldsJ, checkEntry, checkPropsJ, knownTypeName, conformsJ, conformsFields,
      entryOk, propsOkJ, requiredOkJ, typeMatches, lookupField, memJ]
  have hv1 : validate_data (.struct docJohn) (.struct schemaBadType) "json" oAllOk =
      ⟨false, some (.schemaLog "schema is not valid under the metaschema")⟩ := by
    rw [validate_data_json, hcBad]
    rfl
  have hv1y : validate_data (.struct docJohn) (.struct schemaBadType) "yaml" oAllOk =
      ⟨false, some (.schemaLog "schema is not valid under the metaschema")⟩ := by
    rw [validate_data_yaml, hcBad]
    rfl
  have hv2 : validate_data (.struct docNoAge) (.struct schemaPerson) "json" oAllOk =
      ⟨false, some (.validationLog "instance does not conform to schema")⟩ := by
    rw [validate_data_json, hcMiss]
    rfl
  have hv2y : validate_data (.struct docNoAge) (.struct schemaPerson) "yaml" oAllOk =
      ⟨false, some (.validationLog "instance does not conform to schema")⟩ := by
    rw [validate_data_yaml, hcMiss]
    rfl
  have hm1 : mainRun "schema.json" fcDocJohn fcSchemaBadType "json" oAllOk =
      "Data validation failed." := by
    rw [mainRun_validate "schema.json" fcDocJohn fcSchemaBadType "json" oAllOk
      (.struct docJohn) (.struct schemaBadType) rfl rfl rfl, hv1]
    rfl
  have hm2 : mainRun "schema.json" fcDocNoAge fcSchemaPerson "json" oAllOk =
      "Data validation failed." := by
    rw [mainRun_validate "schema.json" fcDocNoAge fcSchemaPerson "json" oAllOk
      (.struct docNoAge) (.struct schemaPerson) rfl rfl rfl, hv2]
    rfl
  have hm1y : mainRun "schema.yaml" fcDocJohn fcSchemaBadType "yaml" oAllOk =
      "Data validation failed." := by
    rw [mainRun_validate "schema.yaml" fcDocJohn fcSchemaBadType "yaml" oAllOk
      (.struct docJohn) (.struct schemaBadType) rfl rfl rfl, hv1y]
    rfl
  have hm2y : mainRun "schema.yaml" fcDocNoAge fcSchemaPerson "yaml" oAllOk =
      "Data validation failed." := by
    rw [mainRun_validate "schema.yaml" fcDocNoAge fcSchemaPerson "yaml" oAllOk
      (.struct docNoAge) (.struct schemaPerson) rfl rfl rfl, hv2y]
    rfl
  exact ⟨by rw [hv1, hv2], by rw [hv1], by rw [hv1y, hv2y], by rw [hv1y],
    hm1, hm2, hm1y, hm2y⟩

/-- C3: amended.  The XML branch does run its two phases in order — the
schema file is parsed and compiled before the element tree is serialised,
re-parsed and asserted (a phase-one failure aborts the rest) — but the
claimed outcome distinctions do not exist: every failure at any phase,
schema compilation, re-parse syntax error or conformance failure alike,
yields the identical result `False` via the outer generic handler, whose
log line reports the `NameError` about the unbound name `lxml` instead of
the library's diagnostic; only full success returns `True`. -/
theorem xml_two_phase_uniform_failure (d : DataVal) (s : SchemaVal)
    (o : LxmlRun) (e : PyExc) :
    (o.importLxml = .ok () → o.parseSchemaDoc = .error e → xmlInnerBody o = .error e) ∧
    (xmlInnerBody o = .error e →
      validate_data d s "xml" o =
        ⟨false, some (.unexpectedLog "name lxml is not defined")⟩) ∧
    (xmlInnerBody o = .ok () → validate_data d s "xml" o = ⟨true, none⟩) := by
  refine ⟨?_, ?_, ?_⟩
  · intro h1 h2
    unfold xmlInnerBody
    rw [h1, h2]
    rfl
  · intro h
    rw [validate_data_xml, h]
  · intro h
    rw [validate_data_xml, h]

/-- C3 witness: a garbled XSD aborts in phase one and yields `False`; an
all-successful run returns `True`. -/
theorem xml_two_phase_uniform_failure_witness :
    xmlInnerBody oBadXsd = .error (.xmlSynErr "garbled schema file") ∧
    validate_data .xmlRoot (.path "schema.xsd") "xml" oBadXsd =
      ⟨false, some (.unexpectedLog "name lxml is not defined")⟩ ∧
    validate_data .xmlRoot (.path "schema.xsd") "xml" oAllOk = ⟨true, none⟩ :=
  ⟨(xml_two_phase_uniform_failure .xmlRoot (.path "schema.xsd") oBadXsd
      (.xmlSynErr "garbled schema file")).1 rfl rfl,
   (xml_two_phase_uniform_failure .xmlRoot (.path "schema.xsd") oBadXsd
      (.xmlSynErr "garbled schema file")).2.1 rfl,
   (xml_two_phase_uniform_failure .xmlRoot (.path "schema.xsd") oAllOk
      (.otherExc "unused")).2.2 rfl⟩

/-- C3 counterexample: a malformed schema file and a schema-conformance
failure produce the identical outcome — `False` with the generic
unexpected-error log — so neither is a distinct SchemaError or Invalid
outcome and the library's diagnostic message is not attached. -/
theorem xml_failure_classes_conflated :
    validate_data .xmlRoot (.path "schema.xsd") "xml" oBadXsd =
      validate_data .xmlRoot (.path "schema.xsd") "xml" oNonConform ∧
    validate_data .xmlRoot (.path "schema.xsd") "xml" oBadXsd =
      ⟨false, some (.unexpectedLog "name lxml is not defined")⟩ := ⟨rfl, rfl⟩

/-- C9: in the XML branch, the inner `except` clauses can never
successfully handle an exception: evaluating `lxml.etree.XMLSchemaError`
raises `NameError` because line 137 binds only the alias `lxml_ET`, so for
every exception of the inner block the handler chain yields that
`NameError` (never a handled result), which only the outer generic
`except Exception` converts into the `False` verdict. -/
theorem inner_xml_handlers_dead (d : DataVal) (s : SchemaVal) (o : LxmlRun)
    (e : PyExc) (h : xmlInnerBody o = .error e) :
    runHandlers e innerXmlHandlers = .error nameLxmlUnbound ∧
    (∀ r, runHandlers e innerXmlHandlers ≠ .ok r) ∧
    validate_data d s "xml" o =
      ⟨false, some (.unexpectedLog "name lxml is not defined")⟩ := by
  refine ⟨runHandlers_inner e, ?_, ?_⟩
  · intro r hr
    rw [runHandlers_inner] at hr
    exact Except.noConfusion hr
  · rw [validate_data_xml, h]

/-- C9 witness: a conformance failure (`DocumentInvalid`) escapes the inner
handlers and is converted to `False` by the outer generic handler. -/
theorem inner_xml_handlers_dead_witness :
    runHandlers (.docInvalid "element item does not conform to type xs:integer")
      innerXmlHandlers = .error nameLxmlUnbound ∧
    validate_data .xmlRoot (.path "schema.xsd") "xml" oNonConform =
      ⟨false, some (.unexpectedLog "name lxml is not defined")⟩ :=
  ⟨(inner_xml_handlers_dead .xmlRoot (.path "schema.xsd") oNonConform
      (.docInvalid "element item does not conform to type xs:integer") rfl).1,
   (inner_xml_handlers_dead .xmlRoot (.path "schema.xsd") oNonConform
      (.docInvalid "element item does not conform to type xs:integer") rfl).2.2⟩

/-- C5: for every JSON or YAML document that lacks a property listed in the
well-formed schema's `required` list, `validate_data` returns `False`
through the `except ValidationError` handler (line 157) — never `True` and
never through the SchemaError handler. -/
theorem missing_required_property_invalid
    (ft : String) (sfields dfields : List (String × JValue)) (reqs : List JValue)
    (k : String) (o : LxmlRun)
    (hft : ft = "json" ∨ ft = "yaml")
    (hschema : checkSchemaJ (.obj sfields) = true)
    (hreq : ("required", JValue.arr reqs) ∈ sfields)
    (hk : JValue.str k ∈ reqs)
    (hmiss : lookupField k dfields = none) :
    validate_data (.struct (.obj dfields)) (.struct (.obj sfields)) ft o =
      ⟨false, some (.validationLog "instance does not conform to schema")⟩ := by
  have hentry : entryOk "required" (.arr reqs) (.obj dfields) = false := by
    rw [entryOk]
    simp only [reduceIte]
    exact requiredOkJ_false reqs dfields k hk hmiss
  have hconf : conformsJ (.obj sfields) (.obj dfields) = false := by
    rw [conformsJ]
    exact conformsFields_false_of_entry sfields _ _ _ hreq hentry
  have hcall : jsValidateCall (.struct (.obj dfields)) (.struct (.obj sfields))
      = .error (.jsonValidationError "instance does not conform to schema") := by
    simp [jsValidateCall, jsonschemaValidate, hschema, hconf]
  rcases hft with h | h <;> subst h
  · rw [validate_data_json, hcall]
    rfl
  · rw [validate_data_yaml, hcall]
    rfl

/-- C5 witness: the bootstrap schema of `main.py` line 235 and a document
missing the required property `age`. -/
theorem missing_required_property_invalid_witness :
    validate_data (.struct docNoAge) (.struct schemaPerson) "yaml" oAllOk =
      ⟨false, some (.validationLog "instance does not conform to schema")⟩ :=
  missing_required_property_invalid "yaml"
    [("type", .str "object"),
     ("properties", .obj [("name", .obj [("type", .str "string")]),
                          ("age", .obj [("type", .str "integer")])]),
     ("required", .arr [.str "name", .str "age"])]
    [("name", .str "John Doe")] [.str "name", .str "age"] "age" oAllOk
    (Or.inr rfl)
    (by simp [checkSchemaJ, checkFieldsJ, checkEntry, checkPropsJ, knownTypeName])
    (.tail _ (.tail _ (.head _))) (.tail _ (.head _)) rfl

/-- C7: every Loader or SchemaLoader fault propagates to `main` as a
terminal failure for the run: `load_data`'s handlers only log and re-raise
(lines 58 to 66), so the parser's exception reaches `main` unchanged,
`main` prints the error line of its own handler (line 224), and validation
is never invoked — the printed line does not depend on the validation
oracle at all. -/
theorem loader_faults_terminal (dc sc : FileContent) (sp ft : String)
    (o o' : LxmlRun) (e : PyExc) :
    (dc.jsonParse = .error e → load_data dc "json" = .error e) ∧
    (load_data dc ft = .error e →
      mainRun sp dc sc ft o = "An error occurred: " ++ excMsg e ∧
      mainRun sp dc sc ft o' = mainRun sp dc sc ft o) ∧
    (load_schema sp sc ft = .error e →
      (∃ m, mainRun sp dc sc ft o = "An error occurred: " ++ m) ∧
      mainRun sp dc sc ft o' = mainRun sp dc sc ft o) := by
  refine ⟨?_, ?_, ?_⟩
  · intro h
    simp only [load_data, h]
    rfl
  · intro h
    exact ⟨by simp only [mainRun, h], by simp only [mainRun, h]⟩
  · intro h
    cases hd : load_data dc ft with
    | error e2 =>
        exact ⟨⟨excMsg e2, by simp only [mainRun, hd]⟩, by simp only [mainRun, hd]⟩
    | ok d =>
        exact ⟨⟨excMsg e, by simp only [mainRun, hd, h]⟩, by simp only [mainRun, hd, h]⟩

/-- C7 witness: the syntactically broken JSON file of spec Scenario C: the
`JSONDecodeError` from `json.load` aborts the run before validation, with
the same printed line whatever the validation oracle would do. -/
theorem loader_faults_terminal_witness :
    load_data fcBrokenJson "json" =
      .error (.jsonDecodeError "Expecting value: line 1 column 9 (char 8)") ∧
    mainRun "schema.json" fcBrokenJson fcSchemaPerson "json" oAllOk =
      "An error occurred: Expecting value: line 1 column 9 (char 8)" ∧
    mainRun "schema.json" fcBrokenJson fcSchemaPerson "json" oBoom =
      mainRun "schema.json" fcBrokenJson fcSchemaPerson "json" oAllOk := by
  have h := loader_faults_terminal fcBrokenJson fcSchemaPerson "schema.json" "json"
    oAllOk oBoom (.jsonDecodeError "Expecting value: line 1 column 9 (char 8)")
  have h1 := h.1 rfl
  have h2 := h.2.1 h1
  exact ⟨h1, h2.1, h2.2⟩

/-- C10: a file whose parse yields `None` (a JSON file containing `null`,
or an empty YAML file under `safe_load`) makes `load_data`/`load_schema`
return `None` without raising; `main`'s `is not None` guard (line 215) then
prints the load-failure line and validation is never invoked, so a null
document never reaches a Valid or Invalid verdict. -/
theorem null_parse_never_validated (sp ft : String) (dc sc : FileContent)
    (o o' : LxmlRun) (d : DataVal) (s : SchemaVal) :
    (dc.jsonParse = .ok .null → load_data dc "json" = .ok (.struct .null)) ∧
    (dc.yamlParse = .ok .null → load_data dc "yaml" = .ok (.struct .null)) ∧
    (sc.jsonParse = .ok .null → load_schema sp sc "json" = .ok (.struct .null)) ∧
    (load_data dc ft = .ok d → load_schema sp sc ft = .ok s →
      (isNoneData d || isNoneSchema s) = true →
      mainRun sp dc sc ft o = "Failed to load data or schema." ∧
      mainRun sp dc sc ft o' = mainRun sp dc sc ft o) := by
  refine ⟨?_, ?_, ?_, ?_⟩
  · intro h
    simp only [load_data, h]
    rfl
  · intro h
    simp only [load_data, h]
    rfl
  · intro h
    simp only [load_schema, h]
    rfl
  · intro hd hs hnull
    have hcond : (!isNoneData d && !isNoneSchema s) = false := by
      cases h1 : isNoneData d <;> cases h2 : isNoneSchema s <;>
        simp_all
    constructor
    · simp [mainRun, hd, hs, hcond]
    · simp [mainRun, hd, hs, hcond]

/-- C10 witness: a JSON data file containing the literal `null`. -/
theorem null_parse_never_validated_witness :
    load_data fcNull "json" = .ok (.struct .null) ∧
    mainRun "schema.json" fcNull fcSchemaPerson "json" oAllOk =
      "Failed to load data or schema." ∧
    mainRun "schema.json" fcNull fcSchemaPerson "json" oBadXsd =
      mainRun "schema.json" fcNull fcSchemaPerson "json" oAllOk := by
  have h := null_parse_never_validated "schema.json" "json" fcNull fcSchemaPerson
    oAllOk oBadXsd (.struct .null) (.struct schemaPerson)
  have h1 := h.1 rfl
  have h4 := h.2.2.2 h1 rfl rfl
  exact ⟨h1, h4.1, h4.2⟩

end FileValidator
